import Mathlib

/-!
Verification of the airline customer-support frontend and of the
spec-described task-orchestration engine.

The repository's source files under version control are the React
frontend: `frontend/src/services/api.js`, `frontend/src/pages/CustomerSupport.jsx`
and the admin panel in `frontend/src/App.jsx`.  Those are embedded here as
pure Lean functions.  The FastAPI backend (orchestrator, task executor,
session store) is not part of the source tree; where a property depends on
it, the relevant operation is modelled from the specification and marked
`Modelled from the spec:` in its doc comment.
-/

/-! ## JavaScript-style helpers -/

/-- Truthiness of a nullable string, as JavaScript evaluates
`sessionId && ...` and `!sessionId`: `null` and the empty string are falsy,
every other string is truthy. -/
def jsTruthy : Option String → Bool
  | none => false
  | some s => !(s == "")

/-- ASCII whitespace, the common case of the character class removed by
JavaScript `String.prototype.trim`. -/
def isWsChar (c : Char) : Bool :=
  c == ' ' || c == '\t' || c == '\n' || c == '\r'

/-- JavaScript `inputValue.trim()`: strip leading and trailing whitespace.
Defined over the character list so that it reduces in the kernel. -/
def jsTrim (s : String) : String :=
  ⟨((s.data.dropWhile isWsChar).reverse.dropWhile isWsChar).reverse⟩

/-! ## Wire-level messages (api.js, lines 13-34)

`customerAPI.sendQuery` posts `\x7bquery, session_id\x7d` to `/customer/query`;
`customerAPI.sendInput` posts `\x7bsession_id, input_value\x7d` to
`/customer/input`.  A `Request` value records which endpoint was hit and
with which payload. -/

inductive Request where
  | query (query : String) (session_id : Option String)
  | input (session_id : String) (input_value : String)
deriving DecidableEq, Repr

/-- Session id carried by a request: the `session_id` field of the posted
payload. -/
def requestSession : Request → Option String
  | .query _ sid => sid
  | .input sid _ => some sid

/-- Fields of a successful orchestration response as the client reads them
in `CustomerSupport.jsx` lines 52-67: `response.session_id`,
`response.response`, `response.needs_input`, `response.input_type`.
`needs_input` and `input_type` may be absent (`undefined`), modelled with
`Option`. -/
structure ApiResult where
  session_id : String
  response : String
  needs_input : Option Bool
  input_type : Option String
deriving DecidableEq, Repr

/-- Outcome of an awaited API call: either the parsed response body or a
thrown error (network failure or non-2xx status, caught at line 69). -/
inductive ServerOutcome where
  | ok (r : ApiResult)
  | error
deriving DecidableEq, Repr

/-! ## Chat state (CustomerSupport.jsx) -/

/-- One entry of the `messages` state array.  User messages (lines 31-35)
carry only `sender`, `text`, `timestamp`; system messages (lines 58-64)
additionally carry `needsInput` and `inputType`; error messages (lines
71-76) carry `isError: true`.  Absent fields are `none` / `false`. -/
structure ChatMessage where
  sender : String
  text : String
  timestamp : Nat
  needsInput : Option Bool := none
  inputType : Option String := none
  isError : Bool := false
deriving DecidableEq, Repr

/-- The component's React state hooks (lines 6-16): `messages`,
`inputValue`, `sessionId`, `isLoading`, `needsInput`. -/
structure ClientState where
  messages : List ChatMessage
  inputValue : String
  sessionId : Option String
  isLoading : Bool
  needsInput : Bool
deriving DecidableEq, Repr

/-- The user message appended at lines 31-37. -/
def userMessageOf (s : ClientState) (now : Nat) : ChatMessage :=
  { sender := "user", text := s.inputValue, timestamp := now }

/-- The system message built from a successful response at lines 58-64. -/
def systemMessageOf (r : ApiResult) (now : Nat) : ChatMessage :=
  { sender := "system", text := r.response, timestamp := now,
    needsInput := r.needs_input, inputType := r.input_type }

/-- The apology message appended on the error path, lines 71-76. -/
def errorMessageAt (now : Nat) : ChatMessage :=
  { sender := "system", text := "Sorry, I encountered an error. Please try again.",
    timestamp := now, isError := true }

/-- Which request `handleSendMessage` issues, lines 29 and 41-50: nothing
when the trimmed input is empty or a request is already in flight
(line 29); `sendInput(sessionId, inputValue)` when `sessionId && needsInput`
is truthy (lines 44-46); otherwise `sendQuery(inputValue, sessionId)`
(lines 47-50). -/
def sentRequest (s : ClientState) : Option Request :=
  if (jsTrim s.inputValue == "") || s.isLoading then none
  else if jsTruthy s.sessionId && s.needsInput then
    some (Request.input (s.sessionId.getD "") s.inputValue)
  else
    some (Request.query s.inputValue s.sessionId)

/-- One complete run of `handleSendMessage` (lines 27-81), with the awaited
server call abstracted as a function from the issued request to its
outcome and the wall clock as `now`.  On the guard (line 29) failing, the
state is unchanged.  Otherwise the user message is appended and the input
cleared (lines 37-38); on success the session id is adopted only when the
held one is falsy (lines 53-55), the system message is appended and
`needsInput` updated (lines 66-67); on error an apology is appended and
nothing else changes (lines 69-77); `isLoading` is reset in `finally`
(line 79). -/
def clientStep (s : ClientState) (server : Request → ServerOutcome) (now : Nat) :
    ClientState :=
  match sentRequest s with
  | none => s
  | some req =>
    let afterUser : List ChatMessage := s.messages ++ [userMessageOf s now]
    match server req with
    | .ok r =>
        { messages := afterUser ++ [systemMessageOf r now]
          inputValue := ""
          sessionId := if jsTruthy s.sessionId then s.sessionId else some r.session_id
          isLoading := false
          needsInput := r.needs_input.getD false }
    | .error =>
        { messages := afterUser ++ [errorMessageAt now]
          inputValue := ""
          sessionId := s.sessionId
          isLoading := false
          needsInput := s.needsInput }

example : (jsTrim "  hi  " == "") = false := by decide

example : sentRequest ⟨[], "hi", some "", false, true⟩ = some (Request.query "hi" (some "")) := by
  decide

/-! ## JSON-level view of a query response

`api.js` returns the parsed JSON body (`response.data`); the component
reads its properties by name at lines 53-63 of `CustomerSupport.jsx`.  A
JSON object is an association list of property names and values; a missing
property reads as `undefined` (`none`). -/

inductive JVal where
  | str (s : String)
  | bool (b : Bool)
  | null
deriving DecidableEq, Repr

/-- JavaScript property access `o.k` on a parsed JSON object. -/
def jsonGet (o : List (String × JVal)) (k : String) : Option JVal :=
  (o.find? (fun p => p.1 == k)).map (fun p => p.2)

/-- Property access expecting a string value. -/
def jsonGetStr (o : List (String × JVal)) (k : String) : Option String :=
  match jsonGet o k with
  | some (.str s) => some s
  | _ => none

/-- The text the component displays for the system message of a turn:
line 60 of `CustomerSupport.jsx` reads the `response` property of the
response body (`text: response.response`). -/
def displayedSystemText (o : List (String × JVal)) : Option String :=
  jsonGetStr o "response"

/-! ## Task definitions and the admin editor (App.jsx, AdminPanel)

The task-type select at lines 338-347 offers exactly four values. -/

inductive TaskType where
  | customer_input
  | api_call
  | policy_lookup
  | response
deriving DecidableEq, Repr

/-- One step of a request type: `\x7btask_name, task_type, execution_order,
configuration\x7d` (spec §3; the editor builds objects of this shape at
lines 70-75 and 129-134 of `App.jsx`).  The free-form `configuration`
object is an association list. -/
structure TaskDefinition where
  task_name : String
  task_type : TaskType
  execution_order : Nat
  configuration : List (String × String)
deriving DecidableEq, Repr

/-- The blank task the editor inserts: empty `task_name`, `task_type:
customer_input`, empty `configuration`, with the given `execution_order`. -/
def blankTask (order : Nat) : TaskDefinition :=
  { task_name := "", task_type := .customer_input, execution_order := order,
    configuration := [] }

/-- The request type being edited in the admin modal: `\x7bname, description,
tasks\x7d`. -/
structure RequestTypeDraft where
  name : String
  description : String
  tasks : List TaskDefinition
deriving DecidableEq, Repr

/-- `handleCreateRequestType` (App.jsx lines 65-79): a fresh draft with one
blank `customer_input` task at `execution_order` 1. -/
def newRequestTypeDraft : RequestTypeDraft :=
  { name := "", description := "", tasks := [blankTask 1] }

/-- `addTask` (App.jsx lines 124-137): append a blank task with
`execution_order` set to `tasks.length + 1`. -/
def addTask (d : RequestTypeDraft) : RequestTypeDraft :=
  { d with tasks := d.tasks ++ [blankTask (d.tasks.length + 1)] }

/-- The reordering loop of `removeTask` (App.jsx lines 142-144):
`newTasks.forEach((task, i) => \x7b task.execution_order = i + 1 \x7d)`,
renumbering from `k` onward. -/
def renumberTasks : List TaskDefinition → Nat → List TaskDefinition
  | [], _ => []
  | t :: ts, k => { t with execution_order := k } :: renumberTasks ts (k + 1)

/-- `removeTask` (App.jsx lines 139-149): drop the task at position
`index` (`filter((_, i) => i !== index)`), then renumber `execution_order`
to match list position. -/
def removeTask (d : RequestTypeDraft) (index : Nat) : RequestTypeDraft :=
  { d with tasks := renumberTasks (d.tasks.eraseIdx index) 1 }

/-- The RequestType invariant of spec §3: the task list is non-empty and
the `execution_order` values form the contiguous sequence 1..N in list
position order. -/
def requestTypeInvariant (tasks : List TaskDefinition) : Prop :=
  tasks ≠ [] ∧ tasks.map (fun t => t.execution_order) = List.range' 1 tasks.length

instance (tasks : List TaskDefinition) : Decidable (requestTypeInvariant tasks) := by
  unfold requestTypeInvariant; infer_instance

example : requestTypeInvariant (addTask newRequestTypeDraft).tasks := by decide
example : ¬ requestTypeInvariant (removeTask newRequestTypeDraft 0).tasks := by decide

/-! ## The task-orchestration engine, modelled from the spec

The backend (FastAPI service layer with the Task Orchestrator) is not in
the source tree; the definitions below follow spec §3, §4.4, §4.5 and §9
and are each marked `Modelled from the spec:`. -/

/-- Modelled from the spec: a RequestType, `\x7bid, name, description,
tasks\x7d` (§3); the missing backend stores these rows. -/
structure RequestType where
  id : Nat
  name : String
  description : String
  tasks : List TaskDefinition
deriving DecidableEq, Repr

/-- Collected inputs and stored step results, a mapping from field name to
value (§3).  Insertion prepends, lookup takes the most recent binding, so
later writes shadow earlier ones. -/
def insertInput (inputs : List (String × String)) (k v : String) :
    List (String × String) :=
  (k, v) :: inputs

/-- Lookup in a `collected_inputs` mapping. -/
def lookupInput (inputs : List (String × String)) (k : String) : Option String :=
  (inputs.find? (fun p => p.1 == k)).map (fun p => p.2)

/-- Lookup of a key in a task's `configuration` mapping. -/
def cfgGet (t : TaskDefinition) (k : String) : Option String :=
  (t.configuration.find? (fun p => p.1 == k)).map (fun p => p.2)

/-- The field a `customer_input` task collects ("which entity to collect",
§3), read from its configuration and defaulting to the task name. -/
def taskField (t : TaskDefinition) : String :=
  (cfgGet t "field").getD t.task_name

/-- Modelled from the spec: the two collaborator capabilities a task step
may invoke (§6) — airline operations (an operation name applied to the
resolved parameters, `none` on `UpstreamCallFailed`) and policy lookup
(`none` on `PolicyNotFound`).  The missing backend reaches these over
HTTP. -/
structure CollabEnv where
  airlineOp : String → List (String × String) → Option String
  policyLookup : String → Option String

/-- Result of interpreting one task against the current inputs. -/
inductive StepResult where
  | advance (inputs : List (String × String))
  | suspend (prompt : String) (input_type : String)
  | retryFail (message : String)
  | finish (text : String)
deriving Repr

/-- Modelled from the spec: the Task Executor's per-task behaviour table
(§4.4).  `customer_input` auto-advances when its field is already
collected and otherwise suspends with a prompt; `api_call` stores the
collaborator result under the configured result key and advances, or
fails retryably without advancing; `policy_lookup` stores the policy text,
falling back to an apology text and advancing either way; `response`
renders the terminal message. -/
def execStep (env : CollabEnv) (t : TaskDefinition)
    (inputs : List (String × String)) : StepResult :=
  match t.task_type with
  | .customer_input =>
      match lookupInput inputs (taskField t) with
      | some _ => .advance inputs
      | none =>
          .suspend ((cfgGet t "prompt").getD ("Please provide " ++ taskField t))
            (taskField t)
  | .api_call =>
      let op := (cfgGet t "operation").getD t.task_name
      match env.airlineOp op inputs with
      | some result => .advance (insertInput inputs ((cfgGet t "result_key").getD op) result)
      | none => .retryFail "We could not complete that operation. Please try again."
  | .policy_lookup =>
      let ptype := (cfgGet t "policy_type").getD t.task_name
      match env.policyLookup ptype with
      | some txt => .advance (insertInput inputs "policy_text" txt)
      | none => .advance (insertInput inputs "policy_text" "We apologize, that policy is unavailable right now.")
  | .response =>
      .finish ((cfgGet t "template").getD "Your request has been processed.")

/-- How one call of the execution loop ended (§4.4): suspended awaiting
input, completed with a terminal response, stopped on a retryable
collaborator failure, ran past the last task, or exceeded the bounded
iteration guard of §9 (treated as `InvalidWorkflowDefinition`). -/
inductive ExecOutcome where
  | suspended (prompt : String) (input_type : String)
  | completed (text : String)
  | retryError (message : String)
  | outOfTasks
  | invalidWorkflow
deriving Repr

/-- The executor's view of a session: the current task pointer and the
collected inputs. -/
structure ExecState where
  idx : Nat
  inputs : List (String × String)
deriving Repr

/-- Modelled from the spec: the execution loop of §4.4 with the bounded
iteration guard of §9, returning the list of indices of the tasks that
executed and advanced (in order), the final executor state, and the
outcome.  A suspending task and a failing `api_call` leave the index
unchanged and do not appear in the executed list; every other executed
task increments the index. -/
def runExecFuel (env : CollabEnv) (tasks : List TaskDefinition) :
    Nat → ExecState → List Nat × ExecState × ExecOutcome
  | 0, s => ([], s, .invalidWorkflow)
  | fuel + 1, s =>
    match tasks.get? s.idx with
    | none => ([], s, .outOfTasks)
    | some t =>
      match execStep env t s.inputs with
      | .advance inputs' =>
          let r := runExecFuel env tasks fuel ⟨s.idx + 1, inputs'⟩
          (s.idx :: r.1, r.2)
      | .suspend p ty => ([], s, .suspended p ty)
      | .retryFail m => ([], s, .retryError m)
      | .finish txt => ([s.idx], ⟨s.idx + 1, s.inputs⟩, .completed txt)

/-- The execution loop with the conservative step bound `tasks.length + 1`
(§9); since every iteration either advances the index or stops, this bound
is never the reason the loop stops. -/
def runExec (env : CollabEnv) (tasks : List TaskDefinition) (s : ExecState) :
    List Nat × ExecState × ExecOutcome :=
  runExecFuel env tasks (tasks.length + 1) s

/-- Session status (§3). -/
inductive SessionStatus where
  | active
  | awaiting_input
  | completed
  | failed
deriving DecidableEq, Repr

/-- Modelled from the spec: a Session, `\x7bsession_id, request_type,
current_task_index, collected_inputs, message_history, status\x7d` (§3). -/
structure Session where
  session_id : String
  request_type : Option RequestType
  current_task_index : Nat
  collected_inputs : List (String × String)
  message_history : List ChatMessage
  status : SessionStatus
deriving Repr

/-- The pending `customer_input` field of a session: the field collected
by the task at `current_task_index` of its request type. -/
def pendingField (s : Session) : Option String :=
  s.request_type.bind fun rt => (rt.tasks.get? s.current_task_index).map taskField

/-- Modelled from the spec: the `awaiting_input` branch of the
Orchestrator (§4.5) — "store the message as the value for the pending
`customer_input` field, set status back to `active`"; the Task Executor is
then resumed at the unchanged `current_task_index` via `runExec`. -/
def acceptInput (s : Session) (value : String) : Session :=
  match pendingField s with
  | some f =>
      { s with collected_inputs := insertInput s.collected_inputs f value,
               status := .active }
  | none => s

/-- Modelled from the spec: the Session State Store (§4.2), keyed by
session id. -/
structure SessionStore where
  sessions : List (String × Session)

/-- Modelled from the spec: `getHistory(session_id)` (§6) — return the
stored session's ordered `message_history` without mutating the store
(`SessionNotFound`, i.e. `none`, when absent). -/
def getHistory (store : SessionStore) (sid : String) :
    Option (List ChatMessage) × SessionStore :=
  (((store.sessions.find? (fun p => p.1 == sid)).map
      (fun p => p.2.message_history)), store)

/-! ## Helper lemmas about the execution loop -/

/-- For any fuel, the executed-task trace of one loop call is the
contiguous index range starting at the entry index, and the final index is
the entry index advanced once per executed task. -/
theorem runExecFuel_trace (env : CollabEnv) (tasks : List TaskDefinition) :
    ∀ (fuel : Nat) (s : ExecState),
      (runExecFuel env tasks fuel s).1
          = List.range' s.idx (runExecFuel env tasks fuel s).1.length
        ∧ (runExecFuel env tasks fuel s).2.1.idx
          = s.idx + (runExecFuel env tasks fuel s).1.length := by
  intro fuel
  induction fuel with
  | zero => intro s; simp [runExecFuel]
  | succ fuel ih =>
    intro s
    unfold runExecFuel
    cases h : tasks.get? s.idx with
    | none => simp
    | some t =>
      cases hs : execStep env t s.inputs with
      | advance inputs' =>
        obtain ⟨ih1, ih2⟩ := ih ⟨s.idx + 1, inputs'⟩
        simp only [hs] at *
        refine ⟨?_, ?_⟩
        · rw [List.length_cons, List.range'_succ]
          exact congrArg (s.idx :: ·) ih1
        · rw [List.length_cons, ih2]
          omega
      | suspend p ty => simp [hs]
      | retryFail m => simp [hs]
      | finish txt => simp [hs, List.range'_one]

/-! ## Helper lemmas about the admin editor -/

/-- Renumbering from `k` gives `execution_order` values `k, k+1, ...` in
list position order. -/
theorem renumberTasks_map : ∀ (l : List TaskDefinition) (k : Nat),
    (renumberTasks l k).map (fun t => t.execution_order) = List.range' k l.length
  | [], _ => by simp [renumberTasks]
  | t :: ts, k => by
    simp only [renumberTasks, List.map_cons, List.length_cons, List.range'_succ,
      renumberTasks_map ts (k + 1)]

/-- Renumbering preserves length. -/
theorem renumberTasks_length : ∀ (l : List TaskDefinition) (k : Nat),
    (renumberTasks l k).length = l.length
  | [], _ => rfl
  | t :: ts, k => by
    simp only [renumberTasks, List.length_cons, renumberTasks_length ts (k + 1)]

/-! ## Demonstration fixtures -/

/-- A cancel-trip style request type: collect the PNR, look up the
booking, respond. -/
def demoRT : RequestType :=
  { id := 1, name := "Cancel Trip", description := "Cancel a booked trip",
    tasks :=
      [ { task_name := "Get PNR", task_type := .customer_input,
          execution_order := 1, configuration := [("field", "pnr")] },
        { task_name := "Fetch booking", task_type := .api_call,
          execution_order := 2,
          configuration := [("operation", "getBooking"), ("result_key", "booking")] },
        { task_name := "Final response", task_type := .response,
          execution_order := 3,
          configuration := [("template", "Your trip has been cancelled.")] } ] }

/-- Collaborators that always succeed. -/
def demoEnv : CollabEnv :=
  { airlineOp := fun _ _ => some "ok", policyLookup := fun _ => some "policy text" }

/-! ## Claims -/

/-- The conclusion of claim C3 at given parameters: the executed-index
trace of one loop call is the contiguous range starting at the entry
index, the final index is the entry index plus the number of executed
tasks, and the trace of a resumed call (same tasks, fresh collaborators
and inputs, entry at the final index) extends that range with no gap or
overlap. -/
def executorTraceContiguous (env env₂ : CollabEnv) (tasks : List TaskDefinition)
    (s : ExecState) (inputs₂ : List (String × String)) : Prop :=
  (runExec env tasks s).1 = List.range' s.idx (runExec env tasks s).1.length
  ∧ (runExec env tasks s).2.1.idx = s.idx + (runExec env tasks s).1.length
  ∧ (runExec env tasks s).1
        ++ (runExec env₂ tasks ⟨(runExec env tasks s).2.1.idx, inputs₂⟩).1
      = List.range' s.idx
          ((runExec env tasks s).1.length
            + (runExec env₂ tasks ⟨(runExec env tasks s).2.1.idx, inputs₂⟩).1.length)

/-- C3: For all valid RequestType definitions, the Task Executor visits
tasks strictly in `execution_order` starting at `current_task_index`; a
suspending task leaves `current_task_index` unchanged, a non-suspending
task increments it, and no task is skipped or repeated within one resumed
workflow. -/
theorem taskExecutor_visits_in_order (rt : RequestType) (env env₂ : CollabEnv)
    (s : ExecState) (inputs₂ : List (String × String))
    (hvalid : requestTypeInvariant rt.tasks) :
    executorTraceContiguous env env₂ rt.tasks s inputs₂ := by
  obtain ⟨h1, h2⟩ := runExecFuel_trace env rt.tasks (rt.tasks.length + 1) s
  obtain ⟨h3, h4⟩ := runExecFuel_trace env₂ rt.tasks (rt.tasks.length + 1)
      ⟨(runExec env rt.tasks s).2.1.idx, inputs₂⟩
  refine ⟨h1, h2, ?_⟩
  simp only [runExec] at h1 h2 h3 ⊢
  rw [h1, h3]
  simp only [h2]
  have happ := List.range'_append s.idx
      (runExecFuel env rt.tasks (rt.tasks.length + 1) s).1.length
      (runExecFuel env₂ rt.tasks (rt.tasks.length + 1)
        ⟨s.idx + (runExecFuel env rt.tasks (rt.tasks.length + 1) s).1.length,
          inputs₂⟩).1.length 1
  simpa [Nat.add_comm, Nat.one_mul] using happ

/-- C3 witness: the contiguity conclusion holds of the demonstration
request type run from index 0. -/
theorem taskExecutor_visits_in_order_witness :
    requestTypeInvariant demoRT.tasks
    ∧ executorTraceContiguous demoEnv demoEnv demoRT.tasks ⟨0, []⟩ [] :=
  ⟨by decide, taskExecutor_visits_in_order demoRT demoEnv demoEnv ⟨0, []⟩ [] (by decide)⟩

/-- C7 counterexample: removing the only task of a freshly created request
type (App.jsx `removeTask` has no guard against deleting the last task)
yields an empty task list, violating the non-emptiness half of the
RequestType invariant. -/
theorem admin_editor_invariant_cex :
    ¬ requestTypeInvariant ((removeTask newRequestTypeDraft 0).tasks) := by
  decide

/-- C7 (amended): the draft built by `handleCreateRequestType` satisfies
the RequestType invariant; `addTask` preserves it; `removeTask` always
restores the contiguous 1..N numbering, and also preserves non-emptiness
whenever it is not applied to the only remaining task. -/
theorem admin_editor_invariant :
    requestTypeInvariant newRequestTypeDraft.tasks
    ∧ (∀ d : RequestTypeDraft, requestTypeInvariant d.tasks →
        requestTypeInvariant (addTask d).tasks)
    ∧ (∀ (d : RequestTypeDraft) (i : Nat),
        (removeTask d i).tasks.map (fun t => t.execution_order)
          = List.range' 1 (removeTask d i).tasks.length)
    ∧ (∀ (d : RequestTypeDraft) (i : Nat), 2 ≤ d.tasks.length →
        requestTypeInvariant (removeTask d i).tasks) := by
  refine ⟨by decide, ?_, ?_, ?_⟩
  · rintro d ⟨-, hmap⟩
    refine ⟨by simp [addTask], ?_⟩
    have hconcat := @List.range'_concat 1 1 d.tasks.length
    simp only [addTask, List.map_append, List.length_append, List.map_cons,
      List.map_nil, List.length_cons, List.length_nil, blankTask, hmap]
    rw [hconcat]
    simp [Nat.add_comm]
  · intro d i
    simp only [removeTask]
    rw [renumberTasks_length, renumberTasks_map]
  · intro d i hlen
    refine ⟨?_, ?_⟩
    · have h1 : (removeTask d i).tasks.length = (d.tasks.eraseIdx i).length := by
        simp [removeTask, renumberTasks_length]
      have h2 := List.length_eraseIdx d.tasks i
      intro hnil
      rw [hnil] at h1
      simp at h1
      split at h2 <;> omega
    · simp only [removeTask]
      rw [renumberTasks_length, renumberTasks_map]

/-- C7 witness: creating a draft and adding a task keeps the invariant,
and removing one of the two tasks keeps it as well. -/
theorem admin_editor_invariant_witness :
    requestTypeInvariant (addTask newRequestTypeDraft).tasks
    ∧ 2 ≤ (addTask newRequestTypeDraft).tasks.length
    ∧ requestTypeInvariant (removeTask (addTask newRequestTypeDraft) 1).tasks :=
  ⟨admin_editor_invariant.2.1 newRequestTypeDraft (by decide), by decide,
    admin_editor_invariant.2.2.2 (addTask newRequestTypeDraft) 1 (by decide)⟩

/-- Concrete client state refuting claim C1 as stated: a session id is
held (the empty string, which is non-null) and the previous response asked
for input, yet the message is sent as a query because JavaScript treats
the empty string as falsy in `sessionId && needsInput`. -/
def cexStateC1 : ClientState :=
  { messages := [], inputValue := "hi", sessionId := some "",
    isLoading := false, needsInput := true }

/-- C1 counterexample: with a held (non-null) session id `""` and
`needsInput = true`, `handleSendMessage` submits via `sendQuery`, not
`sendInput`. -/
theorem message_dispatch_cex :
    cexStateC1.sessionId = some "" ∧ cexStateC1.needsInput = true
    ∧ sentRequest cexStateC1 = some (Request.query "hi" (some "")) := by
  decide

/-- C1 (amended): for every message the customer submits (non-blank input,
no request in flight): if the held session id is truthy (non-null and
non-empty) and the previous system response indicated that input is
needed, the message is submitted via `sendInput` for that session;
in every other case — no session id, an empty-string session id, or the
session not awaiting input — it is submitted via `sendQuery` carrying the
current session id (null for a new session). -/
theorem message_dispatch (s : ClientState)
    (hb : (jsTrim s.inputValue == "") = false) (hl : s.isLoading = false) :
    (∀ sid : String, s.sessionId = some sid → sid ≠ "" → s.needsInput = true →
      sentRequest s = some (Request.input sid s.inputValue))
    ∧ ((jsTruthy s.sessionId && s.needsInput) = false →
      sentRequest s = some (Request.query s.inputValue s.sessionId)) := by
  constructor
  · intro sid hsid hne hni
    have ht : jsTruthy (some sid) = true := by
      simp [jsTruthy, hne]
    simp [sentRequest, hb, hl, hsid, ht, hni]
  · intro hfalse
    simp [sentRequest, hb, hl, hfalse]

/-- C1 witness: a state holding session id `"S1"` and awaiting input sends
the message through the input endpoint. -/
theorem message_dispatch_witness :
    (jsTrim "ABC123" == "") = false
    ∧ sentRequest ⟨[], "ABC123", some "S1", false, true⟩
        = some (Request.input "S1" "ABC123") :=
  ⟨by decide,
    (message_dispatch ⟨[], "ABC123", some "S1", false, true⟩ (by decide) rfl).1
      "S1" rfl (by decide) rfl⟩

/-- A session awaiting the PNR of the demonstration request type. -/
def demoSessionAwait : Session :=
  { session_id := "sess-1", request_type := some demoRT, current_task_index := 0,
    collected_inputs := [], message_history := [], status := .awaiting_input }

/-- A client state whose pending input is whitespace-only. -/
def wsClientState : ClientState :=
  { messages := [], inputValue := "   ", sessionId := some "sess-1",
    isLoading := false, needsInput := true }

/-- C2: a session in `awaiting_input` state for a field F, given any
non-empty input, transitions back to `active` with that input recorded as
`collected_inputs[F]`; and the client refuses to submit an input that is
non-empty but whitespace-only (its trimmed value is empty, so no request
is issued). -/
theorem awaiting_input_acceptance (s : Session) (F value : String)
    (cs : ClientState)
    (hst : s.status = .awaiting_input) (hpf : pendingField s = some F)
    (hv : value ≠ "")
    (hcsne : cs.inputValue ≠ "") (hcsws : jsTrim cs.inputValue = "") :
    (acceptInput s value).status = .active
    ∧ lookupInput (acceptInput s value).collected_inputs F = some value
    ∧ sentRequest cs = none := by
  refine ⟨?_, ?_, ?_⟩
  · simp [acceptInput, hpf]
  · simp [acceptInput, hpf, lookupInput, insertInput, List.find?]
  · simp [sentRequest, hcsws]

/-- C2 witness: the demonstration session awaiting field `pnr` accepts the
non-empty input `ABC123` and goes back to `active`, while the whitespace
message `"   "` is never submitted. -/
theorem awaiting_input_acceptance_witness :
    demoSessionAwait.status = .awaiting_input
    ∧ pendingField demoSessionAwait = some "pnr"
    ∧ ((acceptInput demoSessionAwait "ABC123").status = .active
        ∧ lookupInput (acceptInput demoSessionAwait "ABC123").collected_inputs "pnr"
            = some "ABC123"
        ∧ sentRequest wsClientState = none) :=
  ⟨rfl, by decide,
    awaiting_input_acceptance demoSessionAwait "pnr" "ABC123" wsClientState
      rfl (by decide) (by decide) (by decide) (by decide)⟩

/-- Reduction of `clientStep` once the issued request is known. -/
theorem clientStep_of_sent (s : ClientState) (server : Request → ServerOutcome)
    (now : Nat) (req : Request) (h : sentRequest s = some req) :
    clientStep s server now =
      (match server req with
       | .ok r =>
          { messages := s.messages ++ [userMessageOf s now, systemMessageOf r now],
            inputValue := "",
            sessionId := if jsTruthy s.sessionId then s.sessionId else some r.session_id,
            isLoading := false, needsInput := r.needs_input.getD false }
       | .error =>
          { messages := s.messages ++ [userMessageOf s now, errorMessageAt now],
            inputValue := "", sessionId := s.sessionId, isLoading := false,
            needsInput := s.needsInput } : ClientState) := by
  unfold clientStep
  rw [h]
  cases hsrv : server req <;> simp [hsrv]

/-- A submission that went through implies the guard of line 29 passed. -/
theorem sent_imp_not_loading (s : ClientState) (req : Request)
    (hreq : sentRequest s = some req) :
    s.isLoading = false ∧ (jsTrim s.inputValue == "") = false := by
  constructor
  · cases hl : s.isLoading
    · rfl
    · rw [sentRequest] at hreq
      simp [hl] at hreq
  · cases hb : (jsTrim s.inputValue == "")
    · rfl
    · rw [sentRequest] at hreq
      simp [hb] at hreq

/-- C4: when the awaited collaborator call of a turn fails, the failure is
converted into an apology message for that turn and is never fatal — the
session id, the awaiting-input state and all previously stored messages
are unchanged, only the user's message and one error message are appended,
and resubmitting the same text afterwards issues the same request again. -/
theorem error_turn_recoverable (s : ClientState) (server : Request → ServerOutcome)
    (now : Nat) (req : Request)
    (hreq : sentRequest s = some req) (herr : server req = .error) :
    (clientStep s server now).sessionId = s.sessionId
    ∧ (clientStep s server now).needsInput = s.needsInput
    ∧ (clientStep s server now).messages
        = s.messages ++ [userMessageOf s now, errorMessageAt now]
    ∧ sentRequest { clientStep s server now with inputValue := s.inputValue }
        = sentRequest s := by
  obtain ⟨hl, hb⟩ := sent_imp_not_loading s req hreq
  rw [clientStep_of_sent s server now req hreq, herr]
  exact ⟨rfl, rfl, rfl, by simp [sentRequest, hb, hl]⟩
/-- C4 witness: a turn whose collaborator call fails keeps session id,
awaiting-input flag and prior history, and appends the user message and
the apology. -/
theorem error_turn_recoverable_witness :
    sentRequest ⟨[], "cancel", some "S1", false, false⟩
        = some (Request.query "cancel" (some "S1"))
    ∧ ((clientStep ⟨[], "cancel", some "S1", false, false⟩ (fun _ => .error) 2).sessionId
          = (⟨[], "cancel", some "S1", false, false⟩ : ClientState).sessionId
        ∧ (clientStep ⟨[], "cancel", some "S1", false, false⟩ (fun _ => .error) 2).needsInput
          = (⟨[], "cancel", some "S1", false, false⟩ : ClientState).needsInput
        ∧ (clientStep ⟨[], "cancel", some "S1", false, false⟩ (fun _ => .error) 2).messages
          = (⟨[], "cancel", some "S1", false, false⟩ : ClientState).messages
              ++ [userMessageOf ⟨[], "cancel", some "S1", false, false⟩ 2, errorMessageAt 2]
        ∧ sentRequest { clientStep ⟨[], "cancel", some "S1", false, false⟩ (fun _ => .error) 2
              with inputValue := (⟨[], "cancel", some "S1", false, false⟩ : ClientState).inputValue }
          = sentRequest ⟨[], "cancel", some "S1", false, false⟩) :=
  ⟨by decide,
    error_turn_recoverable ⟨[], "cancel", some "S1", false, false⟩ (fun _ => .error) 2
      (Request.query "cancel" (some "S1")) (by decide) rfl⟩

/-- A query-response body shaped as the spec's §6 contract words it, with
a `response_text` field. -/
def specShapedResult : List (String × JVal) :=
  [("session_id", JVal.str "abc"), ("response_text", JVal.str "How can I help?"),
   ("needs_input", JVal.bool false)]

/-- C5 counterexample: on a response body carrying the spec-named
`response_text` field, the client displays nothing — line 60 reads the
`response` property, so the displayed text comes from `response`, never
from `response_text`. -/
theorem query_response_fields_cex :
    displayedSystemText specShapedResult = none
    ∧ jsonGetStr specShapedResult "response_text" = some "How can I help?"
    ∧ displayedSystemText [("response", JVal.str "Hi")] = some "Hi" := by
  decide

/-- C5 (amended): the caller reads the submitQuery result's fields
`session_id`, `response`, `needs_input` and `input_type`; it displays the
`response` field (not `response_text`) as the system message's text,
stores `needs_input` (defaulting to false) as the awaiting-input flag, and
adopts `session_id` when it holds none. -/
theorem query_response_fields (s : ClientState) (server : Request → ServerOutcome)
    (now : Nat) (req : Request) (r : ApiResult)
    (hreq : sentRequest s = some req) (hok : server req = .ok r) :
    (clientStep s server now).messages
        = s.messages ++ [userMessageOf s now, systemMessageOf r now]
    ∧ (systemMessageOf r now).text = r.response
    ∧ (systemMessageOf r now).inputType = r.input_type
    ∧ (clientStep s server now).needsInput = r.needs_input.getD false
    ∧ (s.sessionId = none → (clientStep s server now).sessionId = some r.session_id) := by
  rw [clientStep_of_sent s server now req hreq, hok]
  refine ⟨rfl, rfl, rfl, rfl, ?_⟩
  intro hnone
  simp [hnone, jsTruthy]

/-- A first-turn query state and a server that always answers with the
demonstration result. -/
def qState : ClientState :=
  { messages := [], inputValue := "hello", sessionId := none,
    isLoading := false, needsInput := false }

/-- A fixed successful response. -/
def demoResult : ApiResult :=
  { session_id := "S1", response := "Hi there", needs_input := some true,
    input_type := some "pnr" }

/-- A server that always succeeds with `demoResult`. -/
def okServer : Request → ServerOutcome := fun _ => .ok demoResult

/-- C5 witness: the first turn of a conversation displays the `response`
field of the result, stores its `needs_input`, and adopts its
`session_id`. -/
theorem query_response_fields_witness :
    sentRequest qState = some (Request.query "hello" none)
    ∧ ((clientStep qState okServer 5).messages
          = qState.messages ++ [userMessageOf qState 5, systemMessageOf demoResult 5]
        ∧ (systemMessageOf demoResult 5).text = demoResult.response
        ∧ (systemMessageOf demoResult 5).inputType = demoResult.input_type
        ∧ (clientStep qState okServer 5).needsInput = demoResult.needs_input.getD false
        ∧ (qState.sessionId = none →
            (clientStep qState okServer 5).sessionId = some demoResult.session_id)) :=
  ⟨by decide,
    query_response_fields qState okServer 5 (Request.query "hello" none) demoResult
      (by decide) rfl⟩

/-- C6: every submitted customer turn appends exactly two messages before
it finishes — the inbound user message first, then the outbound system
message — on the success path and on the failure path alike. -/
theorem turn_appends_two_messages (s : ClientState) (server : Request → ServerOutcome)
    (now : Nat) (req : Request) (hreq : sentRequest s = some req) :
    (clientStep s server now).messages.length = s.messages.length + 2
    ∧ (clientStep s server now).messages.take s.messages.length = s.messages
    ∧ (clientStep s server now).messages.get? s.messages.length
        = some (userMessageOf s now)
    ∧ (userMessageOf s now).sender = "user"
    ∧ (userMessageOf s now).text = s.inputValue
    ∧ ((clientStep s server now).messages.get? (s.messages.length + 1)).map
        (fun m => m.sender) = some "system" := by
  rw [clientStep_of_sent s server now req hreq]
  cases hsrv : server req <;>
    refine ⟨by simp, by simp [List.take_left], ?_, rfl, rfl, ?_⟩ <;>
    first
      | (rw [List.get?_append_right (Nat.le_refl _)]; simp)
      | (rw [List.get?_append_right (Nat.le_add_right _ _)]
         simp [systemMessageOf, errorMessageAt])

/-- C6 witness: a concrete turn (against the always-succeeding server)
grows the history from zero to two messages, user message first. -/
theorem turn_appends_two_messages_witness :
    sentRequest qState = some (Request.query "hello" none)
    ∧ ((clientStep qState okServer 9).messages.length = qState.messages.length + 2
        ∧ (clientStep qState okServer 9).messages.take qState.messages.length
            = qState.messages
        ∧ (clientStep qState okServer 9).messages.get? qState.messages.length
            = some (userMessageOf qState 9)
        ∧ (userMessageOf qState 9).sender = "user"
        ∧ (userMessageOf qState 9).text = qState.inputValue
        ∧ ((clientStep qState okServer 9).messages.get? (qState.messages.length + 1)).map
            (fun m => m.sender) = some "system") :=
  ⟨by decide,
    turn_appends_two_messages qState okServer 9 (Request.query "hello" none) (by decide)⟩

/-- C8: while a request is in flight (`isLoading` true), submitting a
message is a no-op — the guard at line 29 issues no request and leaves the
state unchanged, so a second concurrent orchestration request for the same
session can never be started by the client. -/
theorem loading_blocks_submission (s : ClientState) (server : Request → ServerOutcome)
    (now : Nat) (hl : s.isLoading = true) :
    sentRequest s = none ∧ clientStep s server now = s := by
  have h1 : sentRequest s = none := by simp [sentRequest, hl]
  exact ⟨h1, by simp [clientStep, h1]⟩

/-- C8 witness: a state with a request in flight ignores a submission. -/
theorem loading_blocks_submission_witness :
    (⟨[], "hi", some "S1", true, false⟩ : ClientState).isLoading = true
    ∧ (sentRequest ⟨[], "hi", some "S1", true, false⟩ = none
        ∧ clientStep ⟨[], "hi", some "S1", true, false⟩ okServer 0
            = ⟨[], "hi", some "S1", true, false⟩) :=
  ⟨rfl, loading_blocks_submission ⟨[], "hi", some "S1", true, false⟩ okServer 0 rfl⟩

/-- C9: `getHistory` is idempotent — it leaves the store unchanged, so
calling it twice with the same session id and no intervening message
returns an identical ordered sequence of messages. -/
theorem getHistory_idempotent (store : SessionStore) (sid : String) :
    (getHistory (getHistory store sid).2 sid).1 = (getHistory store sid).1
    ∧ (getHistory store sid).2 = store :=
  ⟨rfl, rfl⟩

/-- A client state holding the (non-null) empty-string session id. -/
def cexStateC10 : ClientState :=
  { messages := [], inputValue := "hi", sessionId := some "",
    isLoading := false, needsInput := false }

/-- A server whose responses carry a fresh session id. -/
def newIdServer : Request → ServerOutcome :=
  fun _ => .ok { session_id := "NEW1", response := "ok", needs_input := some false,
                 input_type := none }

/-- C10 counterexample: a held non-null session id is not always kept —
the empty string is non-null but falsy, so `if (!sessionId)` at line 53
runs again and the next response's `session_id` overwrites it. -/
theorem session_id_stable_cex :
    cexStateC10.sessionId = some ""
    ∧ (clientStep cexStateC10 newIdServer 0).sessionId = some "NEW1" := by
  decide

/-- C10 (amended): once the client holds a truthy (non-null and non-empty)
session id, it never changes — the `session_id` field of every later
response is ignored, and every request the client issues carries the held
session id.  The only exception to the claim as stated is a held
empty-string id, which is falsy and would be overwritten. -/
theorem session_id_stable (s : ClientState) (server : Request → ServerOutcome)
    (now : Nat) (sid : String) (req : Request)
    (hs : s.sessionId = some sid) (hne : sid ≠ "")
    (hreq : sentRequest s = some req) :
    (clientStep s server now).sessionId = some sid
    ∧ requestSession req = some sid := by
  have ht : jsTruthy (some sid) = true := by
    simp [jsTruthy, hne]
  constructor
  · rw [clientStep_of_sent s server now req hreq]
    cases hsrv : server req <;> simp [hsrv, hs, ht]
  · obtain ⟨hl, hb⟩ := sent_imp_not_loading s req hreq
    rw [sentRequest, hb, hl] at hreq
    by_cases hni : s.needsInput = true
    · simp [hs, ht, hni] at hreq
      simp [← hreq, requestSession]
    · simp [hs, ht, hni] at hreq
      simp [← hreq, requestSession]

/-- C10 witness: a held session id `"S1"` survives a turn whose response
carries a different id, and the issued request carries `"S1"`. -/
theorem session_id_stable_witness :
    (⟨[], "status", some "S1", false, false⟩ : ClientState).sessionId = some "S1"
    ∧ sentRequest ⟨[], "status", some "S1", false, false⟩
        = some (Request.query "status" (some "S1"))
    ∧ ((clientStep ⟨[], "status", some "S1", false, false⟩ newIdServer 4).sessionId
          = some "S1"
        ∧ requestSession (Request.query "status" (some "S1")) = some "S1") :=
  ⟨rfl, by decide,
    session_id_stable ⟨[], "status", some "S1", false, false⟩ newIdServer 4 "S1"
      (Request.query "status" (some "S1")) rfl (by decide) (by decide)⟩
